import Mathlib

/-!
Verification of `create_result_containers.ipynb` (SAPHIR water-vapor morphing,
Jahangir and Mapes 2017).

The notebook binds a sequence of names in order: grid constants, two
`np.linspace` coordinate arrays, six 2-D zero arrays, the stack constants, and
two 3-D zero arrays.  We embed it shallowly: numbers are exact rationals (every
constant in the notebook is a dyadic rational and every arithmetic operation it
performs — subtraction of small dyadics, division by 0.5, truncation — is exact
in IEEE double for these values), numpy arrays are records of a shape and a
total element function, and the numpy calls that can raise (`np.linspace` with
a negative count, `np.zeros` with a negative dimension) return `Option`.  Each
notebook variable becomes a definition of the same name.  A separate
statement-by-statement effect trace records what each top-level statement of
the notebook does (bind a name, or print, for the `whos` magics).
-/

namespace SAPHIR

/-- A 1-D numpy array: its length and its element map. -/
structure Arr1 where
  size : ℕ
  get : ℕ → ℚ

/-- A 2-D numpy array: its shape and its element map. -/
structure Arr2 where
  shape : ℕ × ℕ
  get : ℕ → ℕ → ℚ

/-- A 3-D numpy array: its shape and its element map. -/
structure Arr3 where
  shape : ℕ × ℕ × ℕ
  get : ℕ → ℕ → ℕ → ℚ

/-- Python `int()` applied to a (finite) float: truncation toward zero. -/
def pyInt (q : ℚ) : ℤ :=
  if 0 ≤ q then Int.floor q else -Int.floor (-q)

/-- `np.linspace(start, stop, num)` with the default `endpoint=True`:
`num` evenly spaced samples from `start` to `stop` inclusive.  Raises
(`none`) when `num` is negative; numpy computes the step as
`(stop - start)/(num - 1)` and pins the final sample to `stop`, which in
exact arithmetic is the formula below. -/
def np_linspace (start stop : ℚ) (num : ℤ) : Option Arr1 :=
  if num < 0 then none
  else some { size := num.toNat,
              get := fun i =>
                if num.toNat ≤ 1 then start
                else start + i * (stop - start) / ((num.toNat - 1 : ℕ) : ℚ) }

/-- `np.zeros((m, n))`: raises (`none`) on a negative dimension, otherwise an
all-zero array of shape `(m, n)`. -/
def np_zeros2 (m n : ℤ) : Option Arr2 :=
  if m < 0 ∨ n < 0 then none
  else some { shape := (m.toNat, n.toNat), get := fun _ _ => 0 }

/-- `np.zeros((m, n, k))`: raises (`none`) on a negative dimension, otherwise
an all-zero array of shape `(m, n, k)`. -/
def np_zeros3 (m n k : ℤ) : Option Arr3 :=
  if m < 0 ∨ n < 0 ∨ k < 0 then none
  else some { shape := (m.toNat, n.toNat, k.toNat), get := fun _ _ _ => 0 }

/-! ### Notebook cell 2: grid constants, coordinates, result containers -/

/-- `DX = 0.5  # degrees` -/
def DX : ℚ := 0.5

/-- `SOUTH = -30` (central latitude of southern grid cells). -/
def SOUTH : ℚ := -30

/-- `NORTH = 30` (central latitude of northern grid cells). -/
def NORTH : ℚ := 30

/-- `WEST = 0.25` (central longitude of westernmost cell). -/
def WEST : ℚ := 0.25

/-- `EAST = 359.75` (central longitude of easternmost cell). -/
def EAST : ℚ := 359.75

/-- `NLAT = int( (NORTH-SOUTH)/DX )` -/
def NLAT : ℤ := pyInt ((NORTH - SOUTH) / DX)

/-- `lat = np.linspace(SOUTH, NORTH, NLAT)` -/
def lat : Option Arr1 := np_linspace SOUTH NORTH NLAT

/-- `NLON = int( (EAST-WEST)/DX )` -/
def NLON : ℤ := pyInt ((EAST - WEST) / DX)

/-- `lon = np.linspace(WEST, EAST, NLON)` -/
def lon : Option Arr1 := np_linspace WEST EAST NLON

/-- `WV = np.zeros( (NLON,NLAT) )` -/
def WV : Option Arr2 := np_zeros2 NLON NLAT

/-- `AT = np.zeros( (NLON,NLAT) )` -/
def AT : Option Arr2 := np_zeros2 NLON NLAT

/-! ### Notebook cell 4: intermediate containers -/

/-- `WV_before = np.zeros( (NLON,NLAT) )` -/
def WV_before : Option Arr2 := np_zeros2 NLON NLAT

/-- `WV_after  = np.zeros( (NLON,NLAT) )` -/
def WV_after : Option Arr2 := np_zeros2 NLON NLAT

/-- `dt_before = np.zeros( (NLON,NLAT) )` -/
def dt_before : Option Arr2 := np_zeros2 NLON NLAT

/-- `dt_after  = np.zeros( (NLON,NLAT) )` -/
def dt_after : Option Arr2 := np_zeros2 NLON NLAT

/-! ### Notebook cell 6: observation stacks -/

/-- `DTMAX = 6    # hours` -/
def DTMAX : ℤ := 6

/-- `DTstack = 1  # hour` -/
def DTstack : ℤ := 1

/-- `WV_stack = np.zeros( (NLON,NLAT, 2*DTMAX+1) )` -/
def WV_stack : Option Arr3 := np_zeros3 NLON NLAT (2 * DTMAX + 1)

/-- `tobs_stack = np.zeros( (NLON,NLAT, 2*DTMAX+1) )` -/
def tobs_stack : Option Arr3 := np_zeros3 NLON NLAT (2 * DTMAX + 1)

/-! ### Evaluated forms of the notebook's arrays -/

/-- The value `lat` holds: 120 samples from `SOUTH` with step `(NORTH-SOUTH)/119`. -/
def latV : Arr1 :=
  { size := 120, get := fun i => SOUTH + i * (NORTH - SOUTH) / 119 }

/-- The value `lon` holds: 719 samples from `WEST` with step `(EAST-WEST)/718`. -/
def lonV : Arr1 :=
  { size := 719, get := fun i => WEST + i * (EAST - WEST) / 718 }

/-- The value each 2-D container holds: the all-zero 719 × 120 array. -/
def zeros2V : Arr2 :=
  { shape := (719, 120), get := fun _ _ => 0 }

/-- The value each 3-D stack holds: the all-zero 719 × 120 × 13 array. -/
def zeros3V : Arr3 :=
  { shape := (719, 120, 13), get := fun _ _ _ => 0 }

/-! ### Statement-level effect trace of the notebook -/

/-- An observable effect of a notebook statement. -/
inductive Effect where
  | bindName : String → Effect
  | printText : Effect
  | readExternal : Effect
  | writeExternal : Effect
deriving DecidableEq

/-- A top-level statement of the notebook: a module import, an assignment to a
name, or the `whos` introspection magic. -/
inductive Stmt where
  | importModule : String → Stmt
  | assign : String → Stmt
  | whos : Stmt

/-- The notebook's code cells, statement by statement, in execution order. -/
def cellStmts : List Stmt :=
  [ Stmt.importModule "np",
    Stmt.assign "DX", Stmt.assign "SOUTH", Stmt.assign "NORTH",
    Stmt.assign "WEST", Stmt.assign "EAST",
    Stmt.assign "NLAT", Stmt.assign "lat",
    Stmt.assign "NLON", Stmt.assign "lon",
    Stmt.assign "WV", Stmt.assign "AT",
    Stmt.whos,
    Stmt.assign "WV_before", Stmt.assign "WV_after",
    Stmt.assign "dt_before", Stmt.assign "dt_after",
    Stmt.whos,
    Stmt.assign "DTMAX", Stmt.assign "DTstack",
    Stmt.assign "WV_stack", Stmt.assign "tobs_stack",
    Stmt.whos ]

/-- The effects a statement performs: an import or assignment binds a session
name, `whos` prints a variable summary. -/
def stmtEffects : Stmt → List Effect
  | Stmt.importModule n => [Effect.bindName n]
  | Stmt.assign n => [Effect.bindName n]
  | Stmt.whos => [Effect.printText]

/-- The full effect trace of running the notebook top to bottom. -/
def notebookTrace : List Effect := (cellStmts.map stmtEffects).flatten

/-- Effects local to the notebook session: binding a variable or printing a
summary, as opposed to reading or writing anything external. -/
def isLocalEffect : Effect → Bool
  | Effect.bindName _ => true
  | Effect.printText => true
  | Effect.readExternal => false
  | Effect.writeExternal => false

/-! ### Evaluation lemmas -/

/-- `NLAT` evaluates to 120. -/
theorem NLAT_eq : NLAT = 120 := by
  norm_num [NLAT, pyInt, NORTH, SOUTH, DX]

/-- `NLON` evaluates to 719. -/
theorem NLON_eq : NLON = 719 := by
  norm_num [NLON, pyInt, EAST, WEST, DX]

/-- `lat` holds the 120-point linspace `latV`. -/
theorem lat_eq : lat = some latV := by
  unfold lat np_linspace latV
  rw [NLAT_eq]
  norm_num
  refine ⟨by simp, ?_⟩
  funext i
  simp
  norm_num

/-- `lon` holds the 719-point linspace `lonV`. -/
theorem lon_eq : lon = some lonV := by
  unfold lon np_linspace lonV
  rw [NLON_eq]
  norm_num
  refine ⟨by simp, ?_⟩
  funext i
  simp
  norm_num

/-- `WV` holds the all-zero 719 × 120 array. -/
theorem WV_eq : WV = some zeros2V := by
  unfold WV np_zeros2 zeros2V
  rw [NLON_eq, NLAT_eq]
  norm_num
  simp

/-- `AT` holds the all-zero 719 × 120 array. -/
theorem AT_eq : AT = some zeros2V := by
  unfold AT np_zeros2 zeros2V
  rw [NLON_eq, NLAT_eq]
  norm_num
  simp

/-- `WV_before` holds the all-zero 719 × 120 array. -/
theorem WV_before_eq : WV_before = some zeros2V := by
  unfold WV_before np_zeros2 zeros2V
  rw [NLON_eq, NLAT_eq]
  norm_num
  simp

/-- `WV_after` holds the all-zero 719 × 120 array. -/
theorem WV_after_eq : WV_after = some zeros2V := by
  unfold WV_after np_zeros2 zeros2V
  rw [NLON_eq, NLAT_eq]
  norm_num
  simp

/-- `dt_before` holds the all-zero 719 × 120 array. -/
theorem dt_before_eq : dt_before = some zeros2V := by
  unfold dt_before np_zeros2 zeros2V
  rw [NLON_eq, NLAT_eq]
  norm_num
  simp

/-- `dt_after` holds the all-zero 719 × 120 array. -/
theorem dt_after_eq : dt_after = some zeros2V := by
  unfold dt_after np_zeros2 zeros2V
  rw [NLON_eq, NLAT_eq]
  norm_num
  simp

/-- `WV_stack` holds the all-zero 719 × 120 × 13 array. -/
theorem WV_stack_eq : WV_stack = some zeros3V := by
  unfold WV_stack np_zeros3 zeros3V DTMAX
  rw [NLON_eq, NLAT_eq]
  norm_num
  simp

/-- `tobs_stack` holds the all-zero 719 × 120 × 13 array. -/
theorem tobs_stack_eq : tobs_stack = some zeros3V := by
  unfold tobs_stack np_zeros3 zeros3V DTMAX
  rw [NLON_eq, NLAT_eq]
  norm_num
  simp

/-- The spacing of adjacent `latV` samples is the constant `60/119`. -/
theorem latV_spacing (i : ℕ) : latV.get (i + 1) - latV.get i = 60 / 119 := by
  simp only [latV, NORTH, SOUTH]
  push_cast
  ring

/-- The spacing of adjacent `lonV` samples is the constant `359.5/718`. -/
theorem lonV_spacing (i : ℕ) : lonV.get (i + 1) - lonV.get i = (359.5 : ℚ) / 718 := by
  simp only [lonV, EAST, WEST]
  push_cast
  ring

/-! ### The claims -/

/-- Claim C1: the grid containers satisfy the dimensional formula
`NLON = floor((EAST-WEST)/DX)` and `NLAT = floor((NORTH-SOUTH)/DX)`; with the
notebook's constants this gives `NLON = 719` and `NLAT = 120`, and the result
arrays `WV` and `AT` each have shape `(NLON, NLAT) = (719, 120)`. -/
theorem claim1_grid_dimensions :
    NLON = Int.floor ((EAST - WEST) / DX) ∧
    NLAT = Int.floor ((NORTH - SOUTH) / DX) ∧
    NLON = 719 ∧ NLAT = 120 ∧
    WV.map Arr2.shape = some (NLON.toNat, NLAT.toNat) ∧
    AT.map Arr2.shape = some (NLON.toNat, NLAT.toNat) ∧
    WV.map Arr2.shape = some (719, 120) ∧
    AT.map Arr2.shape = some (719, 120) := by
  refine ⟨?_, ?_, NLON_eq, NLAT_eq, ?_, ?_, ?_, ?_⟩
  · rw [NLON_eq]; norm_num [EAST, WEST, DX]
  · rw [NLAT_eq]; norm_num [NORTH, SOUTH, DX]
  · rw [WV_eq, NLON_eq, NLAT_eq]; simp [zeros2V]
  · rw [AT_eq, NLON_eq, NLAT_eq]; simp [zeros2V]
  · rw [WV_eq]; simp [zeros2V]
  · rw [AT_eq]; simp [zeros2V]

/-- Claim C2: after the notebook runs, every allocated result container (`WV`,
`AT`, `WV_before`, `WV_after`, `dt_before`, `dt_after`, `WV_stack`,
`tobs_stack`) is identically zero in every element; no morphing, averaging or
derivative computation modifies any of them. -/
theorem claim2_containers_all_zero (w a wb wa db da : Arr2) (ws ts : Arr3)
    (h1 : WV = some w) (h2 : AT = some a)
    (h3 : WV_before = some wb) (h4 : WV_after = some wa)
    (h5 : dt_before = some db) (h6 : dt_after = some da)
    (h7 : WV_stack = some ws) (h8 : tobs_stack = some ts) :
    (∀ i j, w.get i j = 0) ∧ (∀ i j, a.get i j = 0) ∧
    (∀ i j, wb.get i j = 0) ∧ (∀ i j, wa.get i j = 0) ∧
    (∀ i j, db.get i j = 0) ∧ (∀ i j, da.get i j = 0) ∧
    (∀ i j k, ws.get i j k = 0) ∧ (∀ i j k, ts.get i j k = 0) := by
  rw [WV_eq] at h1
  rw [AT_eq] at h2
  rw [WV_before_eq] at h3
  rw [WV_after_eq] at h4
  rw [dt_before_eq] at h5
  rw [dt_after_eq] at h6
  rw [WV_stack_eq] at h7
  rw [tobs_stack_eq] at h8
  injection h1 with h1
  injection h2 with h2
  injection h3 with h3
  injection h4 with h4
  injection h5 with h5
  injection h6 with h6
  injection h7 with h7
  injection h8 with h8
  subst h1; subst h2; subst h3; subst h4; subst h5; subst h6; subst h7; subst h8
  simp [zeros2V, zeros3V]

/-- Witness for claim C2: the containers the notebook actually holds evaluate
to zero at concrete indices. -/
theorem claim2_witness : zeros2V.get 0 0 = 0 ∧ zeros3V.get 0 0 0 = 0 := by
  obtain ⟨hw, ha, hwb, hwa, hdb, hda, hws, hts⟩ :=
    claim2_containers_all_zero zeros2V zeros2V zeros2V zeros2V zeros2V zeros2V zeros3V zeros3V
      WV_eq AT_eq WV_before_eq WV_after_eq dt_before_eq dt_after_eq WV_stack_eq tobs_stack_eq
  exact ⟨hw 0 0, hws 0 0 0⟩

/-- Claim C3: `DTMAX` is the half-width of the observation stack: `WV_stack`
and `tobs_stack` are 3-D arrays whose third (time) dimension has exactly
`2*DTMAX+1 = 13` layers, with the same first two dimensions `(NLON, NLAT)` as
the result grid. -/
theorem claim3_stack_dimensions :
    2 * DTMAX + 1 = 13 ∧
    WV_stack.map (fun s => s.shape.2.2) = some ((2 * DTMAX + 1).toNat) ∧
    tobs_stack.map (fun s => s.shape.2.2) = some ((2 * DTMAX + 1).toNat) ∧
    WV_stack.map (fun s => (s.shape.1, s.shape.2.1)) = some (NLON.toNat, NLAT.toNat) ∧
    tobs_stack.map (fun s => (s.shape.1, s.shape.2.1)) = some (NLON.toNat, NLAT.toNat) ∧
    WV_stack.map Arr3.shape = some (719, 120, 13) ∧
    tobs_stack.map Arr3.shape = some (719, 120, 13) := by
  rw [WV_stack_eq, tobs_stack_eq, NLON_eq, NLAT_eq]
  norm_num [DTMAX, zeros3V]
  simp

/-- Claim C4: no operation in the notebook can fail: every executed statement
(constant definitions, integer conversions, the `linspace` calls, the
`np.zeros` allocations) succeeds for the fixed constants given in the
notebook — every fallible call returns a value. -/
theorem claim4_no_failures :
    lat.isSome = true ∧ lon.isSome = true ∧
    WV.isSome = true ∧ AT.isSome = true ∧
    WV_before.isSome = true ∧ WV_after.isSome = true ∧
    dt_before.isSome = true ∧ dt_after.isSome = true ∧
    WV_stack.isSome = true ∧ tobs_stack.isSome = true := by
  simp [lat_eq, lon_eq, WV_eq, AT_eq, WV_before_eq, WV_after_eq,
        dt_before_eq, dt_after_eq, WV_stack_eq, tobs_stack_eq]

/-- Counterexample to claim C5: the claim says no variable computed by the
notebook has a determined final value; but `NLAT`, `NLON` and the coordinate
array sizes are fully determined constants of the (input-free, deterministic)
notebook. -/
theorem claim5_counterexample :
    NLAT = 120 ∧ NLON = 719 ∧
    lat.map Arr1.size = some 120 ∧ lon.map Arr1.size = some 719 := by
  refine ⟨NLAT_eq, NLON_eq, ?_, ?_⟩ <;> simp [lat_eq, lon_eq, latV, lonV]

/-- Amended claim C5: every variable computed by the notebook has a fully
determined final value — `NLAT = 120`, `NLON = 719`, `DTMAX = 6`,
`DTstack = 1`, `lat` and `lon` are the fixed linspace arrays, and every
container is the fixed all-zero array of its shape — so any two executions
produce identical values. -/
theorem claim5_amended_determinism :
    NLAT = 120 ∧ NLON = 719 ∧ DTMAX = 6 ∧ DTstack = 1 ∧
    lat = some latV ∧ lon = some lonV ∧
    WV = some zeros2V ∧ AT = some zeros2V ∧
    WV_before = some zeros2V ∧ WV_after = some zeros2V ∧
    dt_before = some zeros2V ∧ dt_after = some zeros2V ∧
    WV_stack = some zeros3V ∧ tobs_stack = some zeros3V :=
  ⟨NLAT_eq, NLON_eq, rfl, rfl, lat_eq, lon_eq, WV_eq, AT_eq, WV_before_eq,
   WV_after_eq, dt_before_eq, dt_after_eq, WV_stack_eq, tobs_stack_eq⟩

/-- Claim C6: the notebook's execution has no effects beyond binding session
variables and printing variable summaries: its statement-level effect trace
contains no external read or write. -/
theorem claim6_only_local_effects : notebookTrace.all isLocalEffect = true := by
  rfl

/-- Claim C7: the coordinate arrays built by `np.linspace` have grid spacing
that differs from the declared cell size `DX`: adjacent latitude points are
`(NORTH-SOUTH)/(NLAT-1) = 60/119` degrees apart and adjacent longitude points
`(EAST-WEST)/(NLON-1) = 359.5/718` degrees apart, and neither equals
`DX = 0.5`. -/
theorem claim7_spacing_mismatch (a b : Arr1) (ha : lat = some a) (hb : lon = some b) :
    (∀ i, i + 1 < a.size → a.get (i + 1) - a.get i = (NORTH - SOUTH) / ((NLAT : ℚ) - 1)) ∧
    (NORTH - SOUTH) / ((NLAT : ℚ) - 1) = 60 / 119 ∧ (60 / 119 : ℚ) ≠ DX ∧
    (∀ i, i + 1 < b.size → b.get (i + 1) - b.get i = (EAST - WEST) / ((NLON : ℚ) - 1)) ∧
    (EAST - WEST) / ((NLON : ℚ) - 1) = (359.5 : ℚ) / 718 ∧ (359.5 : ℚ) / 718 ≠ DX := by
  rw [lat_eq] at ha
  rw [lon_eq] at hb
  injection ha with ha
  injection hb with hb
  subst ha; subst hb
  refine ⟨?_, ?_, ?_, ?_, ?_, ?_⟩
  · intro i _
    rw [latV_spacing i, NLAT_eq]
    norm_num [NORTH, SOUTH]
  · rw [NLAT_eq]; norm_num [NORTH, SOUTH]
  · norm_num [DX]
  · intro i _
    rw [lonV_spacing i, NLON_eq]
    norm_num [EAST, WEST]
  · rw [NLON_eq]; norm_num [EAST, WEST]
  · norm_num [DX]

/-- Witness for claim C7 at the arrays the notebook actually holds and the
first pair of adjacent points. -/
theorem claim7_witness :
    (0 : ℕ) + 1 < latV.size ∧
    latV.get (0 + 1) - latV.get 0 = (NORTH - SOUTH) / ((NLAT : ℚ) - 1) ∧
    (60 / 119 : ℚ) ≠ DX := by
  obtain ⟨h1, h2, h3, h4, h5, h6⟩ := claim7_spacing_mismatch latV lonV lat_eq lon_eq
  have hs : (0 : ℕ) + 1 < latV.size := by norm_num [latV]
  exact ⟨hs, h1 0 hs, h3⟩

/-- Claim C8: `lat` and `lon` are strictly increasing with exact endpoints
`lat[0] = SOUTH`, `lat[NLAT-1] = NORTH`, `lon[0] = WEST`,
`lon[NLON-1] = EAST`; the longitude grid does not wrap: every longitude lies
strictly between 0 and 360, so there is no duplicate point at 0/360. -/
theorem claim8_monotone_endpoints (a b : Arr1) (ha : lat = some a) (hb : lon = some b) :
    a.get 0 = SOUTH ∧ a.get (a.size - 1) = NORTH ∧
    b.get 0 = WEST ∧ b.get (b.size - 1) = EAST ∧
    (∀ i j, i < j → j < a.size → a.get i < a.get j) ∧
    (∀ i j, i < j → j < b.size → b.get i < b.get j) ∧
    (∀ i, i < b.size → 0 < b.get i ∧ b.get i < 360) := by
  rw [lat_eq] at ha
  rw [lon_eq] at hb
  injection ha with ha
  injection hb with hb
  subst ha; subst hb
  refine ⟨by simp [latV], ?_, by simp [lonV], ?_, ?_, ?_, ?_⟩
  · norm_num [latV, NORTH, SOUTH]
  · norm_num [lonV, EAST, WEST]
  · intro i j hij _
    simp only [latV, NORTH, SOUTH]
    have hc : (i : ℚ) < j := by exact_mod_cast hij
    linarith
  · intro i j hij _
    simp only [lonV, EAST, WEST]
    have hc : (i : ℚ) < j := by exact_mod_cast hij
    linarith
  · intro i hi
    simp only [lonV] at hi
    have h0 : (0 : ℚ) ≤ (i : ℚ) := Nat.cast_nonneg i
    have h718n : i ≤ 718 := by omega
    have h718 : (i : ℚ) ≤ 718 := by exact_mod_cast h718n
    simp only [lonV, EAST, WEST]
    constructor
    · linarith
    · linarith

/-- Witness for claim C8 at the arrays the notebook actually holds and
concrete indices. -/
theorem claim8_witness :
    latV.get 0 = SOUTH ∧ lonV.get 0 = WEST ∧
    latV.get 0 < latV.get 5 ∧ lonV.get 0 < lonV.get 5 ∧
    0 < lonV.get 5 ∧ lonV.get 5 < 360 := by
  obtain ⟨h1, h2, h3, h4, h5, h6, h7⟩ := claim8_monotone_endpoints latV lonV lat_eq lon_eq
  have hb := h7 5 (by norm_num [lonV])
  exact ⟨h1, h3, h5 0 5 (by norm_num) (by norm_num [latV]),
         h6 0 5 (by norm_num) (by norm_num [lonV]), hb.1, hb.2⟩

/-- Claim C9: every 2-D container has shape `(NLON, NLAT) = (719, 120)` with
`NLON = len(lon)` and `NLAT = len(lat)`, and both 3-D stacks have shape
`(719, 120, 13)`; the arrays are each bound exactly once by the notebook, so
the agreement holds from each array's creation to the end of the run. -/
theorem claim9_shape_agreement :
    WV.map Arr2.shape = some (719, 120) ∧ AT.map Arr2.shape = some (719, 120) ∧
    WV_before.map Arr2.shape = some (719, 120) ∧ WV_after.map Arr2.shape = some (719, 120) ∧
    dt_before.map Arr2.shape = some (719, 120) ∧ dt_after.map Arr2.shape = some (719, 120) ∧
    WV_stack.map Arr3.shape = some (719, 120, 13) ∧
    tobs_stack.map Arr3.shape = some (719, 120, 13) ∧
    lon.map Arr1.size = some 719 ∧ lat.map Arr1.size = some 120 ∧
    NLON.toNat = 719 ∧ NLAT.toNat = 120 ∧ 2 * DTMAX + 1 = 13 := by
  simp [WV_eq, AT_eq, WV_before_eq, WV_after_eq, dt_before_eq, dt_after_eq,
        WV_stack_eq, tobs_stack_eq, lat_eq, lon_eq, zeros2V, zeros3V, latV, lonV,
        NLON_eq, NLAT_eq, DTMAX]

end SAPHIR
